import Mathlib

/-!
Shallow embedding of `src/library/SupabaseConnector.ts` from the
vue-supabase-todolist template, together with proofs about its upload
bridge and credential-provider behaviour.

Modelling conventions:
* JSON payloads (`op.opData`) are association lists `Row`; `List.lookup`
  gives the mapping a JS object denotes.
* A JS exception value is `JSError`; its `code` field is `some c` exactly
  when the exception carries a string-typed `code` attribute (the
  `typeof ex.code === "string"` test in the source).
* A remote PostgREST call either throws (`CallOutcome.throws`) or resolves
  to a result whose `error` field is `none` on success and
  `some PostgrestError` on failure, mirroring the supabase-js API.
* The remote store's behaviour during one `uploadData` run is a function
  `Nat → CallOutcome` giving the outcome of the i-th call issued.
* `Date` values are modelled as milliseconds since the epoch (`Nat`), so
  `new Date(expires_at * 1000)` becomes `expires_at * 1000`.
-/

/-- Configuration record from the `SupabaseConfig` type in the source. -/
structure SupabaseConfig where
  supabaseUrl : String
  supabaseAnonKey : String
  powersyncUrl : String
deriving DecidableEq, Repr

/-- Supabase `Session` restricted to the fields the connector reads:
`access_token` (optional, the source writes `session.access_token ?? ""`)
and `expires_at` (optional Unix timestamp in seconds). -/
structure Session where
  access_token : Option String
  expires_at : Option Nat
deriving DecidableEq, Repr

/-- A JSON payload (`op.opData`), as an association list column ↦ value. -/
abbrev Row := List (String × String)

/-- One entry of `transaction.crud` (`CrudEntry` from `@powersync/web`):
`op` is the raw operation-kind string, compared against the `UpdateType`
enum values `"PUT"`, `"PATCH"`, `"DELETE"` by the dispatch switch. -/
structure CrudEntry where
  table : String
  op : String
  id : String
  opData : Row
deriving DecidableEq, Repr

/-- The portion of a PowerSync CRUD transaction the connector reads:
its ordered operation list `transaction.crud`. -/
structure CrudTransaction where
  crud : List CrudEntry
deriving DecidableEq, Repr

/-- Error object in a PostgREST result (`result.error`): carries a
string SQLSTATE `code` and a `message`. -/
structure PostgrestError where
  code : String
  message : String
deriving DecidableEq, Repr

/-- A JS exception value as far as `uploadData`'s catch block inspects it:
`code = some c` iff the exception has a string-typed `code` attribute. -/
structure JSError where
  code : Option String
  message : String
deriving DecidableEq, Repr

/-- Outcome of one remote PostgREST call: the call itself throws, or it
resolves to a result whose `error` field is optional. -/
inductive CallOutcome where
  | throws (e : JSError)
  | result (err : Option PostgrestError)
deriving DecidableEq, Repr

/-- A remote call issued by `uploadData`: `upsert` on a table handle,
`update(...).eq("id", id)`, or `delete().eq("id", id)`. -/
inductive RemoteCall where
  | upsert (table : String) (row : Row)
  | update (table : String) (row : Row) (id : String)
  | delete (table : String) (id : String)
deriving DecidableEq, Repr

/-- JS regex `.` metacharacter: matches any character except a line
terminator (`\n`, `\r`, U+2028, U+2029). -/
def dotMatch (c : Char) : Bool :=
  !(c == '\n' || c == '\r' || c == Char.ofNat 0x2028 || c == Char.ofNat 0x2029)

/-- Matcher for the anchored patterns `^c1c2...$` in
`FATAL_RESPONSE_CODES`: exactly five characters, the first two literal,
the rest matched by `.`. -/
def matchesClassPattern (c1 c2 : Char) (s : String) : Bool :=
  match s.toList with
  | [a, b, x, y, z] => a == c1 && b == c2 && dotMatch x && dotMatch y && dotMatch z
  | _ => false

/-- Embedding of `FATAL_RESPONSE_CODES.some((regex) => regex.test(code))` from the
source: SQLSTATE class 22 (`^22...$`), class 23 (`^23...$`), or the
insufficient-privilege code `^42501$`. -/
def isFatalCode (s : String) : Bool :=
  matchesClassPattern '2' '2' s || matchesClassPattern '2' '3' s || s == "42501"

/-- The catch-block classification
`typeof ex.code === "string" && FATAL_RESPONSE_CODES.some(...)`:
true only when the exception carries a string-typed code that matches a
Fatal pattern. -/
def exCodeFatal (e : JSError) : Bool :=
  match e.code with
  | some c => isFatalCode c
  | none => false

/-- The exception `new Error("Could not update Supabase. Received error: "
+ result.error.message)` thrown when a remote result reports an error.
Being a plain `Error`, it has no `code` attribute. -/
def wrapResultError (pe : PostgrestError) : JSError :=
  { code := none, message := "Could not update Supabase. Received error: " ++ pe.message }

/-- The exception `new Error("Unsupported operation type: " + op.op)`
thrown by the `default` branch of the dispatch switch. A plain `Error`,
so it has no `code` attribute. -/
def unsupportedError (kind : String) : JSError :=
  { code := none, message := "Unsupported operation type: " ++ kind }

/-- The JS object spread `{ ...op.opData, id: op.id }`: the merged object
maps `"id"` to the operation's identifier (overriding any `id` in the
payload) and every other key to its payload value. -/
def spreadWithId (data : Row) (id : String) : Row :=
  data.filter (fun kv => kv.1 ≠ "id") ++ [("id", id)]

/-- The dispatch `switch (op.op)` of `uploadData`: which remote call an
operation issues, or the `Unsupported operation type` exception thrown by
the `default` branch. -/
def callOf (op : CrudEntry) : Except JSError RemoteCall :=
  if op.op = "PUT" then .ok (.upsert op.table (spreadWithId op.opData op.id))
  else if op.op = "PATCH" then .ok (.update op.table op.opData op.id)
  else if op.op = "DELETE" then .ok (.delete op.table op.id)
  else .error (unsupportedError op.op)

/-- The remote call an operation would issue, if its kind is supported. -/
def issuedCall (op : CrudEntry) : Option RemoteCall :=
  (callOf op).toOption

/-- The `for (const op of transaction.crud)` loop body of `uploadData`:
processes operations strictly in order, issuing one remote call per
operation; `idx` numbers the calls issued so far. Returns the list of
remote calls issued (in order) and the first exception thrown inside the
try block, if any: the dispatch `default` throw, an exception thrown by
the remote call itself, or the wrapped error thrown when `result.error`
is set. -/
def runOps (remote : Nat → CallOutcome) (idx : Nat) :
    List CrudEntry → List RemoteCall × Option JSError
  | [] => ([], none)
  | op :: rest =>
    match callOf op with
    | .error e => ([], some e)
    | .ok call =>
      match remote idx with
      | .throws e => ([call], some e)
      | .result (some pe) => ([call], some (wrapResultError pe))
      | .result none =>
        let r := runOps remote (idx + 1) rest
        (call :: r.1, r.2)

/-- Observable outcome of one `uploadData` invocation: the remote calls
issued in order, whether `transaction.complete()` was invoked, and the
exception escaping `uploadData`, if any. -/
structure UploadResult where
  calls : List RemoteCall
  completed : Bool
  thrown : Option JSError
deriving DecidableEq, Repr

/-- Embedding of `uploadData` from the source: fetch the next CRUD transaction (`none`
models `getNextCrudTransaction()` returning null → immediate return);
replay its operations in order; on success of all, complete the
transaction; on an exception, complete anyway iff the exception carries a
string-typed code matching a Fatal pattern, otherwise rethrow it. -/
def uploadData (remote : Nat → CallOutcome) (tx : Option CrudTransaction) : UploadResult :=
  match tx with
  | none => { calls := [], completed := false, thrown := none }
  | some t =>
    let r := runOps remote 0 t.crud
    match r.2 with
    | none => { calls := r.1, completed := true, thrown := none }
    | some e =>
      if exCodeFatal e then { calls := r.1, completed := true, thrown := none }
      else { calls := r.1, completed := false, thrown := some e }

/-- Notifications the connector emits to its listeners via
`iterateListeners`. -/
inductive Notif where
  | initialized
  | sessionStarted (s : Session)
deriving DecidableEq, Repr

/-- The connector's mutable fields: `ready` and `currentSession`. -/
structure ConnectorState where
  ready : Bool
  currentSession : Option Session
deriving DecidableEq, Repr

/-- Response shape of `client.auth.getSession()`: an optional session and
an optional error (modelled by its message). -/
structure GetSessionResponse where
  session : Option Session
  error : Option String
deriving DecidableEq, Repr

/-- Embedding of `updateSession` from the source: store the session (even `null`),
then, only when a session is present, emit `sessionStarted` with it.
Returns the new state and the notifications emitted. -/
def updateSession (st : ConnectorState) (s : Option Session) :
    ConnectorState × List Notif :=
  let st' := { st with currentSession := s }
  match s with
  | none => (st', [])
  | some sess => (st', [Notif.sessionStarted sess])

/-- Observable outcome of one `init()` call: resulting state,
notifications emitted, number of `auth.getSession()` fetches performed,
and number of `updateSession` stores performed. -/
structure InitResult where
  state : ConnectorState
  notifs : List Notif
  sessionFetches : Nat
  sessionStores : Nat
deriving DecidableEq, Repr

/-- Embedding of `init` from the source: if `ready` is already set, return immediately;
otherwise fetch the session, store it via `updateSession`, set `ready`,
and emit `initialized`. `resp` is the response `auth.getSession()` would
return on this call's fetch. -/
def init (st : ConnectorState) (resp : GetSessionResponse) : InitResult :=
  if st.ready then { state := st, notifs := [], sessionFetches := 0, sessionStores := 0 }
  else
    let u := updateSession st resp.session
    { state := { u.1 with ready := true }
      notifs := u.2 ++ [Notif.initialized]
      sessionFetches := 1
      sessionStores := 1 }

/-- Observable outcome of one `login()` call: resulting state,
notifications emitted, and the provider error rethrown, if any
(`throw error` rethrows the `AuthError`, modelled by its message). -/
structure LoginResult where
  state : ConnectorState
  notifs : List Notif
  thrown : Option String
deriving DecidableEq, Repr

/-- Embedding of `login` from the source. `resp` models the discriminated union
returned by `signInWithPassword`: either a provider error (then `session`
is null and the code throws the error before touching state) or a
session (then `error` is null and the code stores it via
`updateSession`). -/
def login (st : ConnectorState) (resp : Except String Session) : LoginResult :=
  match resp with
  | .error e => { state := st, notifs := [], thrown := some e }
  | .ok s =>
    let u := updateSession st (some s)
    { state := u.1, notifs := u.2, thrown := none }

/-- Return value of `fetchCredentials`: sync endpoint, bearer token, and
optional expiry instant in milliseconds since the epoch. -/
structure Credentials where
  endpoint : String
  token : String
  expiresAt : Option Nat
deriving DecidableEq, Repr

/-- String interpolation `${error}` of an optional error value: JS
renders `null` as the string `"null"`. -/
def errInterp : Option String → String
  | none => "null"
  | some e => e

/-- Observable outcome of one `fetchCredentials()` call: resulting state,
notifications emitted, and either the thrown error message or the
returned credentials. -/
structure FetchCredsResult where
  state : ConnectorState
  notifs : List Notif
  result : Except String Credentials
deriving Repr

/-- Embedding of `fetchCredentials` from the source: re-fetch the session fresh from
`auth.getSession()`; `if (!session || error) throw`; otherwise return the
configured PowerSync endpoint, `session.access_token ?? ""`, and
`session.expires_at ? new Date(session.expires_at * 1000) : undefined`
(JS truthiness: an expiry of `0` is falsy). The connector's fields are
never written and no listener is notified. -/
def fetchCredentials (config : SupabaseConfig) (st : ConnectorState)
    (resp : GetSessionResponse) : FetchCredsResult :=
  match resp.session, resp.error with
  | some s, none =>
    { state := st
      notifs := []
      result := .ok
        { endpoint := config.powersyncUrl
          token := s.access_token.getD ""
          expiresAt :=
            match s.expires_at with
            | some n => if n ≠ 0 then some (n * 1000) else none
            | none => none } }
  | _, e =>
    { state := st
      notifs := []
      result := .error ("Could not fetch Supabase credentials: " ++ errInterp e) }

/-- Number of `initialized` notifications in an emission list. -/
def countInitialized : List Notif → Nat
  | [] => 0
  | n :: rest => (if n = Notif.initialized then 1 else 0) + countInitialized rest

/-- Per-operation success predicate for the upload loop: the operation's
kind dispatches to a remote call and the `idx`-th remote call resolves
with no error. -/
def opSucceeds (remote : Nat → CallOutcome) (idx : Nat) (op : CrudEntry) : Bool :=
  match callOf op, remote idx with
  | .ok _, .result none => true
  | _, _ => false

/-- Sanity example: the spec's §8.7 two-operation happy path. -/
example :
    uploadData (fun _ => CallOutcome.result none)
      (some { crud := [ { table := "todos", op := "PUT", id := "1",
                          opData := [("description", "buy milk")] },
                        { table := "todos", op := "PATCH", id := "1",
                          opData := [("completed", "1")] } ] }) =
      { calls := [ RemoteCall.upsert "todos"
                     [("description", "buy milk"), ("id", "1")],
                   RemoteCall.update "todos" [("completed", "1")] "1" ],
        completed := true, thrown := none } := by
  rfl

/-- Projection lemma: whatever the failure handling decides,
`uploadData` reports exactly the remote calls issued by the loop. -/
theorem uploadData_calls_eq (remote : Nat → CallOutcome) (t : CrudTransaction) :
    (uploadData remote (some t)).calls = (runOps remote 0 t.crud).1 := by
  unfold uploadData
  cases hr : (runOps remote 0 t.crud).2 with
  | none => simp [hr]
  | some e => by_cases hf : exCodeFatal e <;> simp [hr, hf]

/-- Claim C9: when the Local Pending-Operation Queue has no pending
transaction, `uploadData` returns immediately as a successful no-op:
no remote calls, no completion acknowledgment, no error. -/
theorem uploadData_no_transaction_noop (remote : Nat → CallOutcome) :
    uploadData remote none = { calls := [], completed := false, thrown := none } := rfl

/-- Claim C8: a pending transaction with an empty operation sequence is
acknowledged as complete without issuing any remote store calls and
without error. -/
theorem uploadData_empty_transaction_completes (remote : Nat → CallOutcome) :
    uploadData remote (some { crud := [] }) =
      { calls := [], completed := true, thrown := none } := rfl

/-- Claim C2: any exception raised inside the upload loop whose code does
not match a Fatal pattern — in particular any exception without a
string-typed code — leaves the transaction unacknowledged and is
rethrown unchanged to the caller. -/
theorem uploadData_transient_rethrows (remote : Nat → CallOutcome)
    (crud : List CrudEntry) (calls : List RemoteCall) (e : JSError)
    (hrun : runOps remote 0 crud = (calls, some e))
    (hcode : exCodeFatal e = false) :
    uploadData remote (some { crud := crud }) =
      { calls := calls, completed := false, thrown := some e } := by
  simp [uploadData, hrun, hcode]

/-- Witness for C2: a PATCH whose remote result reports the transient
code `XX000`; the wrapped exception carries no code, the transaction is
not completed, and the exception escapes unchanged. -/
theorem uploadData_transient_rethrows_witness :
    runOps (fun _ => CallOutcome.result (some { code := "XX000", message := "boom" })) 0
        [ { table := "todos", op := "PATCH", id := "1", opData := [("completed", "1")] } ] =
      ([RemoteCall.update "todos" [("completed", "1")] "1"],
       some { code := none, message := "Could not update Supabase. Received error: boom" }) ∧
    exCodeFatal { code := none, message := "Could not update Supabase. Received error: boom" } = false ∧
    uploadData (fun _ => CallOutcome.result (some { code := "XX000", message := "boom" }))
        (some { crud := [ { table := "todos", op := "PATCH", id := "1",
                            opData := [("completed", "1")] } ] }) =
      { calls := [RemoteCall.update "todos" [("completed", "1")] "1"],
        completed := false,
        thrown := some { code := none,
                         message := "Could not update Supabase. Received error: boom" } } :=
  ⟨rfl, rfl, uploadData_transient_rethrows _ _ _ _ rfl rfl⟩

/-- Claim C1 (code evaluated at the failing input): the remote store
reports foreign-key violation `23503` — a code the Fatal denylist
matches — for a Delete, yet `uploadData` does NOT complete the
transaction and the exception escapes: the loop wraps `result.error` in
a plain `Error` whose `code` attribute is absent, so the catch block
classifies it Transient and rethrows. -/
theorem uploadData_fatal_code_dropped :
    isFatalCode "23503" = true ∧
    exCodeFatal (wrapResultError { code := "23503", message := "violates foreign key constraint" }) = false ∧
    uploadData
        (fun _ => CallOutcome.result
          (some { code := "23503", message := "violates foreign key constraint" }))
        (some { crud := [ { table := "todos", op := "DELETE", id := "2", opData := [] } ] }) =
      { calls := [RemoteCall.delete "todos" "2"],
        completed := false,
        thrown := some { code := none,
                         message := "Could not update Supabase. Received error: violates foreign key constraint" } } :=
  ⟨by decide, rfl, rfl⟩

/-- Claim C7: `login` on a provider error rethrows the provider's error
with its message, leaving the stored session untouched and emitting
nothing; on success it replaces the current session and emits
`sessionStarted` carrying the new session. -/
theorem login_spec (st : ConnectorState) (e : String) (s : Session) :
    login st (.error e) = { state := st, notifs := [], thrown := some e } ∧
    login st (.ok s) =
      { state := { st with currentSession := some s },
        notifs := [Notif.sessionStarted s], thrown := none } :=
  ⟨rfl, rfl⟩

/-- Claim C10: `fetchCredentials` never mutates connector state: on every
input — success or failure — the `ready` and `currentSession` fields are
returned unchanged and no notification is emitted. -/
theorem fetchCredentials_no_mutation (config : SupabaseConfig)
    (st : ConnectorState) (resp : GetSessionResponse) :
    (fetchCredentials config st resp).state = st ∧
    (fetchCredentials config st resp).notifs = [] := by
  rcases resp with ⟨s, e⟩
  cases s <;> cases e <;> exact ⟨rfl, rfl⟩

/-- Claim C6: `init` is idempotent — when the connector is already ready
it returns at once with no fetch, no store and no notification; starting
from a not-ready state, two sequential `init` calls perform exactly one
session fetch, exactly one session store, and emit exactly one
`initialized` notification. -/
theorem init_idempotent (st : ConnectorState) (r1 r2 : GetSessionResponse) :
    (st.ready = true →
      init st r1 = { state := st, notifs := [], sessionFetches := 0, sessionStores := 0 }) ∧
    (st.ready = false →
      (init st r1).sessionFetches + (init (init st r1).state r2).sessionFetches = 1 ∧
      (init st r1).sessionStores + (init (init st r1).state r2).sessionStores = 1 ∧
      countInitialized ((init st r1).notifs ++ (init (init st r1).state r2).notifs) = 1) := by
  constructor
  · intro h
    simp [init, h]
  · intro h
    rcases r1 with ⟨s1, e1⟩
    cases s1 <;> simp [init, updateSession, h, countInitialized]

/-- Witness for C6: a fresh connector (not ready, no session), both
fetches returning no session: one fetch, one store, one `initialized`. -/
theorem init_idempotent_witness :
    (init { ready := false, currentSession := none }
        { session := none, error := none }).sessionFetches +
      (init (init { ready := false, currentSession := none }
                { session := none, error := none }).state
            { session := none, error := none }).sessionFetches = 1 ∧
    (init { ready := false, currentSession := none }
        { session := none, error := none }).sessionStores +
      (init (init { ready := false, currentSession := none }
                { session := none, error := none }).state
            { session := none, error := none }).sessionStores = 1 ∧
    countInitialized
      ((init { ready := false, currentSession := none }
          { session := none, error := none }).notifs ++
        (init (init { ready := false, currentSession := none }
                  { session := none, error := none }).state
              { session := none, error := none }).notifs) = 1 :=
  (init_idempotent { ready := false, currentSession := none }
    { session := none, error := none } { session := none, error := none }).2 rfl

/-- Counterexample for C5 as stated: a session whose expiry IS present
(`expires_at = some 0`, the Unix epoch) yields credentials whose
`expiresAt` is `none` rather than a value derived from the expiry: the
source guards with JS truthiness (`session.expires_at ?`), and `0` is
falsy. -/
theorem fetchCredentials_zero_expiry_cex :
    (fetchCredentials
        { supabaseUrl := "https://su.example", supabaseAnonKey := "anon",
          powersyncUrl := "https://ps.example" }
        { ready := true, currentSession := none }
        { session := some { access_token := some "tok", expires_at := some 0 },
          error := none }).result =
      .ok { endpoint := "https://ps.example", token := "tok", expiresAt := none } ∧
    (none : Option Nat) ≠ some (0 * 1000) :=
  ⟨rfl, by decide⟩

/-- Claim C5 (amended): with no session or a provider error,
`fetchCredentials` throws the credentials-unavailable error; otherwise it
returns the configured sync endpoint, the session's access token
defaulting to `""` when absent, and an expiry derived from the session's
`expires_at` when that field is present and nonzero (JS truthiness), and
no expiry otherwise. -/
theorem fetchCredentials_spec (config : SupabaseConfig) (st : ConnectorState)
    (resp : GetSessionResponse) :
    (resp.session = none ∨ resp.error.isSome = true →
      (fetchCredentials config st resp).result =
        .error ("Could not fetch Supabase credentials: " ++ errInterp resp.error)) ∧
    (∀ s, resp.session = some s → resp.error = none →
      (fetchCredentials config st resp).result =
        .ok { endpoint := config.powersyncUrl
              token := s.access_token.getD ""
              expiresAt :=
                match s.expires_at with
                | some n => if n ≠ 0 then some (n * 1000) else none
                | none => none }) := by
  rcases resp with ⟨sess, err⟩
  constructor
  · intro h
    cases sess with
    | none => cases err <;> rfl
    | some s =>
      cases err with
      | none => simp at h
      | some e => rfl
  · intro s hs he
    cases sess <;> cases err <;> simp_all [fetchCredentials]

/-- Witness for C5: the failure branch at no session, and the success
branch for a session with token `"tok"` and expiry 1700000000 s. -/
theorem fetchCredentials_spec_witness :
    (fetchCredentials
        { supabaseUrl := "https://su.example", supabaseAnonKey := "anon",
          powersyncUrl := "https://ps.example" }
        { ready := true, currentSession := none }
        { session := none, error := none }).result =
      .error "Could not fetch Supabase credentials: null" ∧
    (fetchCredentials
        { supabaseUrl := "https://su.example", supabaseAnonKey := "anon",
          powersyncUrl := "https://ps.example" }
        { ready := true, currentSession := none }
        { session := some { access_token := some "tok", expires_at := some 1700000000 },
          error := none }).result =
      .ok { endpoint := "https://ps.example", token := "tok",
            expiresAt := some 1700000000000 } :=
  ⟨(fetchCredentials_spec _ _ { session := none, error := none }).1 (Or.inl rfl),
   ((fetchCredentials_spec _ _
      { session := some { access_token := some "tok", expires_at := some 1700000000 },
        error := none }).2 _ rfl rfl).trans (by rfl)⟩

/-- A successfully processed operation has a supported kind, hence an
associated remote call. -/
theorem opSucceeds_isSome (remote : Nat → CallOutcome) (idx : Nat) (op : CrudEntry)
    (h : opSucceeds remote idx op = true) : (issuedCall op).isSome = true := by
  rcases hc : callOf op with e | call <;> rcases hr : remote idx with e2 | err
  · simp [opSucceeds, hc, hr] at h
  · simp [opSucceeds, hc, hr] at h
  · simp [opSucceeds, hc, hr] at h
  · simp [issuedCall, hc, Except.toOption]

/-- Operations that all carry a remote call contribute exactly one call
each. -/
theorem length_filterMap_issuedCall (l : List CrudEntry)
    (h : ∀ op ∈ l, (issuedCall op).isSome = true) :
    (l.filterMap issuedCall).length = l.length := by
  induction l with
  | nil => rfl
  | cons op tl ih =>
    obtain ⟨c, hc⟩ := Option.isSome_iff_exists.mp (h op (List.mem_cons_self op tl))
    simp [List.filterMap_cons, hc,
      ih (fun o ho => h o (List.mem_cons_of_mem op ho))]

/-- Loop decomposition: a prefix of operations that all succeed is
processed first, issuing its remote calls in sequence order, after which
the loop continues on the remainder with the call counter advanced. -/
theorem runOps_append_ok (remote : Nat → CallOutcome) (pre : List CrudEntry) :
    ∀ (idx : Nat) (rest : List CrudEntry),
      (∀ j (hj : j < pre.length), opSucceeds remote (idx + j) (pre.get ⟨j, hj⟩) = true) →
      runOps remote idx (pre ++ rest) =
        (pre.filterMap issuedCall ++ (runOps remote (idx + pre.length) rest).1,
         (runOps remote (idx + pre.length) rest).2) := by
  induction pre with
  | nil => intro idx rest _; simp [runOps]
  | cons op pre ih =>
    intro idx rest h
    have h0 : opSucceeds remote idx op = true := by
      simpa using h 0 (by simp)
    rcases hc : callOf op with e | call <;> rcases hr : remote idx with e2 | err
    · simp [opSucceeds, hc, hr] at h0
    · simp [opSucceeds, hc, hr] at h0
    · simp [opSucceeds, hc, hr] at h0
    · rcases err with _ | pe
      · have hshift : ∀ j (hj : j < pre.length),
            opSucceeds remote (idx + 1 + j) (pre.get ⟨j, hj⟩) = true := by
          intro j hj
          rw [show idx + 1 + j = idx + (j + 1) from by omega]
          exact h (j + 1) (Nat.succ_lt_succ hj)
        have harith : idx + 1 + pre.length = idx + (op :: pre).length := by
          simp; omega
        simp only [List.cons_append, runOps, hc, hr, List.append_eq]
        rw [ih (idx + 1) rest hshift, harith]
        simp [issuedCall, hc, Except.toOption, List.filterMap_cons]
      · simp [opSucceeds, hc, hr] at h0

/-- Step lemma: an unsupported operation kind stops the loop at once
with the dispatch exception and issues no call. -/
theorem runOps_cons_error (remote : Nat → CallOutcome) (idx : Nat) (op : CrudEntry)
    (rest : List CrudEntry) (e : JSError) (h : callOf op = .error e) :
    runOps remote idx (op :: rest) = ([], some e) := by
  unfold runOps; rw [h]

/-- Step lemma: a remote call that throws stops the loop with that
exception, after the call was issued. -/
theorem runOps_cons_throws (remote : Nat → CallOutcome) (idx : Nat) (op : CrudEntry)
    (rest : List CrudEntry) (call : RemoteCall) (e : JSError)
    (h : callOf op = .ok call) (hr : remote idx = .throws e) :
    runOps remote idx (op :: rest) = ([call], some e) := by
  unfold runOps; rw [h, hr]

/-- Step lemma: a remote result reporting an error stops the loop with
the wrapped exception, after the call was issued. -/
theorem runOps_cons_resultError (remote : Nat → CallOutcome) (idx : Nat) (op : CrudEntry)
    (rest : List CrudEntry) (call : RemoteCall) (pe : PostgrestError)
    (h : callOf op = .ok call) (hr : remote idx = .result (some pe)) :
    runOps remote idx (op :: rest) = ([call], some (wrapResultError pe)) := by
  unfold runOps; rw [h, hr]

/-- Claim C3: if operation k is the first in the transaction to fail,
the remote calls issued are exactly the calls of operations 0..k-1 in
sequence order, followed by at most the failing operation's own call;
no remote call is ever issued for operations after k. -/
theorem uploadData_sequential_until_failure (remote : Nat → CallOutcome)
    (ops : List CrudEntry) (k : Nat) (hk : k < ops.length)
    (hpre : ∀ j (hj : j < k), opSucceeds remote j (ops.get ⟨j, Nat.lt_trans hj hk⟩) = true)
    (hfail : opSucceeds remote k (ops.get ⟨k, hk⟩) = false) :
    ∃ extra : List RemoteCall, extra.length ≤ 1 ∧
      (uploadData remote (some { crud := ops })).calls =
        (ops.take k).filterMap issuedCall ++ extra ∧
      ((ops.take k).filterMap issuedCall).length = k := by
  have hlen : (ops.take k).length = k := by
    rw [List.length_take]; omega
  have hpre2 : ∀ j (hj : j < (ops.take k).length),
      opSucceeds remote (0 + j) ((ops.take k).get ⟨j, hj⟩) = true := by
    intro j hj
    have hjk : j < k := by omega
    have hjo : j < ops.length := Nat.lt_trans hjk hk
    have hget : (ops.take k).get ⟨j, hj⟩ = ops.get ⟨j, hjo⟩ := by
      simp [List.getElem_take]
    rw [Nat.zero_add, hget]
    exact hpre j hjk
  have hall : ∀ op ∈ ops.take k, (issuedCall op).isSome = true := by
    intro op hop
    rw [List.mem_iff_getElem] at hop
    obtain ⟨i, hi, hgi⟩ := hop
    have hs := opSucceeds_isSome remote (0 + i) _ (hpre2 i hi)
    simpa [List.get_eq_getElem, hgi] using hs
  have hflen : ((ops.take k).filterMap issuedCall).length = k := by
    rw [length_filterMap_issuedCall _ hall]; exact hlen
  have hdec := runOps_append_ok remote (ops.take k) 0 (ops.drop k) hpre2
  rw [List.take_append_drop, Nat.zero_add, hlen] at hdec
  have hdrop : ops.drop k = ops.get ⟨k, hk⟩ :: ops.drop (k + 1) := by
    rw [List.drop_eq_getElem_cons hk]
    simp
  have hcalls : (uploadData remote (some { crud := ops })).calls = (runOps remote 0 ops).1 :=
    uploadData_calls_eq remote { crud := ops }
  rcases hc : callOf (ops.get ⟨k, hk⟩) with e | call
  · refine ⟨[], by simp, ?_, hflen⟩
    rw [hcalls, hdec, hdrop,
      runOps_cons_error remote k (ops.get ⟨k, hk⟩) (ops.drop (k + 1)) e hc]
  · rcases hr : remote k with e2 | err
    · refine ⟨[call], by simp, ?_, hflen⟩
      rw [hcalls, hdec, hdrop,
        runOps_cons_throws remote k (ops.get ⟨k, hk⟩) (ops.drop (k + 1)) call e2 hc hr]
    · rcases err with _ | pe
      · exfalso
        have hT : opSucceeds remote k (ops.get ⟨k, hk⟩) = true := by
          unfold opSucceeds; rw [hc, hr]
        rw [hfail] at hT
        exact Bool.false_ne_true hT
      · refine ⟨[call], by simp, ?_, hflen⟩
        rw [hcalls, hdec, hdrop,
          runOps_cons_resultError remote k (ops.get ⟨k, hk⟩) (ops.drop (k + 1)) call pe hc hr]

/-- Witness for C3: a three-operation transaction whose second operation
fails with a duplicate-key result; only the first operation's call plus
at most the failing call are issued. -/
theorem uploadData_sequential_until_failure_witness :
    ∃ extra : List RemoteCall, extra.length ≤ 1 ∧
      (uploadData
          (fun n => if n == 1 then
            CallOutcome.result (some { code := "23505", message := "duplicate key" })
            else CallOutcome.result none)
          (some { crud := [ { table := "todos", op := "PUT", id := "1",
                              opData := [("description", "buy milk")] },
                            { table := "todos", op := "PATCH", id := "1",
                              opData := [("completed", "1")] },
                            { table := "todos", op := "DELETE", id := "3",
                              opData := [] } ] })).calls =
        (([ { table := "todos", op := "PUT", id := "1",
              opData := [("description", "buy milk")] },
            { table := "todos", op := "PATCH", id := "1",
              opData := [("completed", "1")] },
            { table := "todos", op := "DELETE", id := "3",
              opData := [] } ] : List CrudEntry).take 1).filterMap issuedCall ++ extra ∧
      ((([ { table := "todos", op := "PUT", id := "1",
             opData := [("description", "buy milk")] },
           { table := "todos", op := "PATCH", id := "1",
             opData := [("completed", "1")] },
           { table := "todos", op := "DELETE", id := "3",
             opData := [] } ] : List CrudEntry).take 1).filterMap issuedCall).length = 1 :=
  uploadData_sequential_until_failure _ _ 1 (by decide) (by decide) (by decide)

/-- The merged object of a Put maps `"id"` to the operation's
identifier, regardless of any `id` key in the payload. -/
theorem lookup_spreadWithId_id (data : Row) (id : String) :
    (spreadWithId data id).lookup "id" = some id := by
  induction data with
  | nil => rfl
  | cons kv tl ih =>
    obtain ⟨a, b⟩ := kv
    by_cases h : a = "id"
    · simpa [spreadWithId, List.filter_cons, h] using ih
    · have hbeq : ("id" == a) = false := beq_eq_false_iff_ne.mpr (Ne.symm h)
      simpa [spreadWithId, List.filter_cons, h, List.lookup, hbeq] using ih

/-- The merged object of a Put maps every key other than `"id"` exactly
as the payload does. -/
theorem lookup_spreadWithId_ne (data : Row) (id key : String) (hkey : key ≠ "id") :
    (spreadWithId data id).lookup key = data.lookup key := by
  have hbid : (key == "id") = false := beq_eq_false_iff_ne.mpr hkey
  induction data with
  | nil => simp [spreadWithId, List.lookup, hbid]
  | cons kv tl ih =>
    obtain ⟨a, b⟩ := kv
    by_cases h : a = "id"
    · subst h
      simpa [spreadWithId, List.filter_cons, List.lookup, hbid] using ih
    · by_cases hka : key = a
      · subst hka
        simp [spreadWithId, List.filter_cons, h, List.lookup]
      · have hbka : (key == a) = false := beq_eq_false_iff_ne.mpr hka
        simpa [spreadWithId, List.filter_cons, h, List.lookup, hbka] using ih

/-- Claim C4: the dispatch switch maps Put to an upsert of the payload
merged with the identifier as the `id` field (identifier winning over
any payload `id`), Patch to an update of the payload matched on the
identifier, Delete to a delete matched on the identifier; any other kind
throws the unsupported-operation exception naming the kind, the loop
stops with no further operation attempted, and the transaction is not
completed. -/
theorem uploadData_dispatch_mapping (table id : String) (opData : Row) (s : String) :
    callOf { table := table, op := "PUT", id := id, opData := opData } =
      .ok (.upsert table (spreadWithId opData id)) ∧
    (spreadWithId opData id).lookup "id" = some id ∧
    (∀ key, key ≠ "id" →
      (spreadWithId opData id).lookup key = opData.lookup key) ∧
    callOf { table := table, op := "PATCH", id := id, opData := opData } =
      .ok (.update table opData id) ∧
    callOf { table := table, op := "DELETE", id := id, opData := opData } =
      .ok (.delete table id) ∧
    (s ≠ "PUT" → s ≠ "PATCH" → s ≠ "DELETE" →
      callOf { table := table, op := s, id := id, opData := opData } =
        .error (unsupportedError s) ∧
      (unsupportedError s).message = "Unsupported operation type: " ++ s ∧
      (∀ remote idx rest,
        runOps remote idx
            ({ table := table, op := s, id := id, opData := opData } :: rest) =
          ([], some (unsupportedError s))) ∧
      (∀ remote rest,
        uploadData remote
            (some { crud :=
              { table := table, op := s, id := id, opData := opData } :: rest }) =
          { calls := [], completed := false, thrown := some (unsupportedError s) })) := by
  refine ⟨rfl, lookup_spreadWithId_id opData id,
    (fun key hkey => lookup_spreadWithId_ne opData id key hkey), rfl, rfl, ?_⟩
  intro h1 h2 h3
  have hcall : callOf { table := table, op := s, id := id, opData := opData } =
      .error (unsupportedError s) := by
    simp [callOf, h1, h2, h3]
  have hrun : ∀ remote idx rest,
      runOps remote idx
          ({ table := table, op := s, id := id, opData := opData } :: rest) =
        ([], some (unsupportedError s)) :=
    fun remote idx rest => runOps_cons_error remote idx _ rest _ hcall
  refine ⟨hcall, rfl, hrun, ?_⟩
  intro remote rest
  simp [uploadData, hrun remote 0 rest, exCodeFatal, unsupportedError]

/-- Witness for C4: a payload whose non-id key survives the merge, and a
transaction headed by the unrecognized kind `MOVE`: the dispatch throws,
no call is issued, and the transaction stays incomplete. -/
theorem uploadData_dispatch_mapping_witness :
    (spreadWithId [("name", "milk"), ("id", "zzz")] "1").lookup "name" = some "milk" ∧
    callOf { table := "todos", op := "MOVE", id := "7", opData := [] } =
      .error (unsupportedError "MOVE") ∧
    uploadData (fun _ => CallOutcome.result none)
        (some { crud := [ { table := "todos", op := "MOVE", id := "7", opData := [] } ] }) =
      { calls := [], completed := false, thrown := some (unsupportedError "MOVE") } :=
  ⟨by
    have h := (uploadData_dispatch_mapping "todos" "1"
      [("name", "milk"), ("id", "zzz")] "MOVE").2.2.1 "name" (by decide)
    rw [h]; rfl,
   ((uploadData_dispatch_mapping "todos" "7" [] "MOVE").2.2.2.2.2
      (by decide) (by decide) (by decide)).1,
   (((uploadData_dispatch_mapping "todos" "7" [] "MOVE").2.2.2.2.2
      (by decide) (by decide) (by decide)).2.2.2 (fun _ => CallOutcome.result none) [])⟩
